import Mathlib

/-!
Verification of the VT control-sequence interpretation layer of a terminal
host: the `TextAttribute` value type, the two XTPUSHSGR/XTPOPSGR attribute
stacks, and the cursor, scrolling-margin and extended-color dispatch
operations.

The definitions are shallow embeddings of the C++ sources:
 - `src/buffer/out/TextAttribute.cpp`,
 - `src/types/sgrStack.cpp` (bitset-keyed `SgrStack`, namespace `TypesImpl`),
 - `src/buffer/out/sgrStack.hpp` (flag-keyed `SgrStack`, namespace `BufferOut`),
 - the host mock `TestGetSet::SetConsoleXtermTextAttribute` of
   `src/terminal/adapter/ut_adapter/adapterTest.cpp`.
Machine words (`WORD`, `uint32_t`) are embedded as `Nat` with explicit 16/32-bit
masking where the C++ truncates. Members whose implementation exists only in
headers or translation units absent from the sources are modelled from the
specification and carry a doc comment saying so.
-/

namespace Terminal

/-- Legacy console attribute masks. The defining header (wincon.h/conattrs.hpp)
is absent from the sources; the values are the fixed Windows console constants
that the code comments and the specification name. -/
def FG_ATTRS : Nat := 0x000F

/-- Background color nibble of the legacy word. -/
def BG_ATTRS : Nat := 0x00F0

/-- Leading-byte (first half of a double-width character) indicator bit. -/
def COMMON_LVB_LEADING_BYTE : Nat := 0x0100

/-- Trailing-byte (second half of a double-width character) indicator bit. -/
def COMMON_LVB_TRAILING_BYTE : Nat := 0x0200

/-- Union of the two double-byte-character indicator bits. -/
def COMMON_LVB_SBCSDBCS : Nat := 0x0300

/-- Top horizontal grid line bit. -/
def COMMON_LVB_GRID_HORIZONTAL : Nat := 0x0400

/-- Left vertical grid line bit. -/
def COMMON_LVB_GRID_LVERTICAL : Nat := 0x0800

/-- Right vertical grid line bit. -/
def COMMON_LVB_GRID_RVERTICAL : Nat := 0x1000

/-- Reverse-video meta bit. -/
def COMMON_LVB_REVERSE_VIDEO : Nat := 0x4000

/-- Underscore (underline / bottom horizontal grid line) meta bit. -/
def COMMON_LVB_UNDERSCORE : Nat := 0x8000

/-- Meta-attribute subset of the legacy word (`conattrs.hpp`). -/
def META_ATTRS : Nat :=
  COMMON_LVB_LEADING_BYTE ||| COMMON_LVB_TRAILING_BYTE |||
  COMMON_LVB_GRID_HORIZONTAL ||| COMMON_LVB_GRID_LVERTICAL |||
  COMMON_LVB_GRID_RVERTICAL ||| COMMON_LVB_REVERSE_VIDEO |||
  COMMON_LVB_UNDERSCORE

/-- Intensity bit of the foreground nibble. -/
def FOREGROUND_INTENSITY : Nat := 0x0008

/-- All sixteen bits of a legacy WORD. -/
def WORD_MASK : Nat := 0xFFFF

/-- WI_ClearAllFlags on a 16-bit WORD: clear the bits of `f` in `v`. -/
def clearFlags (v f : Nat) : Nat := v &&& (WORD_MASK ^^^ f)

/-- WI_UpdateFlag: set or clear the bits of `f` in `v` according to `b`. -/
def updateFlag (v f : Nat) (b : Bool) : Nat :=
  if b then v ||| f else clearFlags v f

/-- WI_UpdateFlagsInMask: replace the bits of `mask` in `v` by those of `w`. -/
def updateFlagsInMask (v mask w : Nat) : Nat :=
  clearFlags v mask ||| (w &&& mask)

/-- Color variant stored in one channel of a `TextAttribute`: the process
default color, an index into the 16/256-entry table, or a direct RGB value
(`TextColor`; its translation unit is absent from the sources, the variant
shape is taken from the specification data model). -/
inductive TextColor where
  | default : TextColor
  | indexed : Nat → TextColor
  | rgb : Nat → TextColor
deriving DecidableEq

namespace TextColor

/-- Modelled from the spec: `TextColor::GetColor` (translation unit absent
from the sources). Resolution requires the external palette table and the
default color for this channel; resolution of an indexed color folds in the
`brighten` flag to jump to the bright half of the first 16 table entries. -/
def GetColor (c : TextColor) (colorTable : Nat → Nat) (defaultColor : Nat)
    (brighten : Bool) : Nat :=
  match c with
  | .default => defaultColor
  | .indexed i => colorTable (if brighten ∧ i < 8 then i + 8 else i)
  | .rgb v => v

/-- Index payload of a color, as `TextColor::GetIndex` yields it for the
legacy/indexed variant (0 for the other variants, which the legacy encoding
paths below never exercise). -/
def GetIndex (c : TextColor) : Nat :=
  match c with
  | .indexed i => i
  | _ => 0

end TextColor

/-- Attribute state of one cell (`TextAttribute`). The first four fields are
the members of the class in `src/buffer/out/TextAttribute.cpp`
(`_wAttrLegacy`, `_foreground`, `_background`, `_isBold`); the remaining
boolean fields are the additional saveable sub-attributes of the newer
generation of the class, which only `src/types/sgrStack.cpp` uses and whose
header is absent from the sources (modelled from the field list of
the metaFlags bitset in the specification). -/
structure TextAttribute where
  wAttrLegacy : Nat := 0
  foreground : TextColor := .default
  background : TextColor := .default
  isBold : Bool := false
  isFaint : Bool := false
  isItalic : Bool := false
  isBlinking : Bool := false
  isInvisible : Bool := false
  isCrossedOut : Bool := false
  isDoublyUnderlined : Bool := false
deriving DecidableEq

namespace TextAttribute

/-- TextAttribute::IsBold. -/
def IsBold (a : TextAttribute) : Bool := a.isBold

/-- TextAttribute::IsReverseVideo: tests COMMON_LVB_REVERSE_VIDEO. -/
def IsReverseVideo (a : TextAttribute) : Bool :=
  a.wAttrLegacy &&& COMMON_LVB_REVERSE_VIDEO != 0

/-- TextAttribute::IsLeadingByte: tests COMMON_LVB_LEADING_BYTE. -/
def IsLeadingByte (a : TextAttribute) : Bool :=
  a.wAttrLegacy &&& COMMON_LVB_LEADING_BYTE != 0

/-- TextAttribute::IsTrailingByte: the source tests COMMON_LVB_LEADING_BYTE
here as well (TextAttribute.cpp line 206). -/
def IsTrailingByte (a : TextAttribute) : Bool :=
  a.wAttrLegacy &&& COMMON_LVB_LEADING_BYTE != 0

/-- TextAttribute::IsBottomHorizontalDisplayed: tests COMMON_LVB_UNDERSCORE. -/
def IsBottomHorizontalDisplayed (a : TextAttribute) : Bool :=
  a.wAttrLegacy &&& COMMON_LVB_UNDERSCORE != 0

/-- TextAttribute::IsUnderline: alias for the underscore bit. -/
def IsUnderline (a : TextAttribute) : Bool := a.IsBottomHorizontalDisplayed

/-- TextAttribute::SetBottomHorizontalDisplayed. -/
def SetBottomHorizontalDisplayed (a : TextAttribute) (b : Bool) : TextAttribute :=
  { a with wAttrLegacy := updateFlag a.wAttrLegacy COMMON_LVB_UNDERSCORE b }

/-- TextAttribute::EnableUnderline. -/
def EnableUnderline (a : TextAttribute) : TextAttribute :=
  a.SetBottomHorizontalDisplayed true

/-- TextAttribute::DisableUnderline. -/
def DisableUnderline (a : TextAttribute) : TextAttribute :=
  a.SetBottomHorizontalDisplayed false

/-- TextAttribute::Invert: toggles the reverse-video bit. -/
def Invert (a : TextAttribute) : TextAttribute :=
  { a with wAttrLegacy := a.wAttrLegacy ^^^ COMMON_LVB_REVERSE_VIDEO }

/-- TextAttribute::Embolden. -/
def Embolden (a : TextAttribute) : TextAttribute := { a with isBold := true }

/-- TextAttribute::Debolden. -/
def Debolden (a : TextAttribute) : TextAttribute := { a with isBold := false }

/-- TextAttribute::SetMetaAttributes: injects only the meta-bit subset of the
packed word and clears the double-byte indicator bits. -/
def SetMetaAttributes (a : TextAttribute) (wMeta : Nat) : TextAttribute :=
  { a with wAttrLegacy :=
      (clearFlags (updateFlagsInMask a.wAttrLegacy META_ATTRS wMeta)
        COMMON_LVB_SBCSDBCS) }

/-- TextAttribute::GetMetaAttributes: the legacy word with the color nibbles
and the double-byte indicator bits cleared. -/
def GetMetaAttributes (a : TextAttribute) : Nat :=
  clearFlags (clearFlags (clearFlags a.wAttrLegacy FG_ATTRS) BG_ATTRS)
    COMMON_LVB_SBCSDBCS

/-- TextAttribute::SetFromLegacy: decodes a packed legacy word into meta bits
(masked to META_ATTRS, double-byte bits cleared) and 4-bit color indices. -/
def SetFromLegacy (a : TextAttribute) (wLegacy : Nat) : TextAttribute :=
  { a with
    wAttrLegacy := clearFlags (wLegacy &&& META_ATTRS) COMMON_LVB_SBCSDBCS,
    foreground := .indexed (wLegacy &&& FG_ATTRS),
    background := .indexed ((wLegacy &&& BG_ATTRS) >>> 4) }

/-- TextAttribute::SetForegroundFrom: copies the foreground channel and its
legacy foreground bits from another attribute. -/
def SetForegroundFrom (a other : TextAttribute) : TextAttribute :=
  { a with
    foreground := other.foreground,
    wAttrLegacy :=
      (clearFlags a.wAttrLegacy FG_ATTRS ||| (other.wAttrLegacy &&& FG_ATTRS)) }

/-- TextAttribute::SetBackgroundFrom: copies the background channel and its
legacy background bits from another attribute. -/
def SetBackgroundFrom (a other : TextAttribute) : TextAttribute :=
  { a with
    background := other.background,
    wAttrLegacy :=
      (clearFlags a.wAttrLegacy BG_ATTRS ||| (other.wAttrLegacy &&& BG_ATTRS)) }

/-- Modelled from the spec: `TextAttribute::GetLegacyAttributes` (declared in
the header, which is absent from the sources). Packs the color indices, the
meta bits and — per the unit-test comment at adapterTest.cpp:1950 — folds the
boldness flag into FOREGROUND_INTENSITY on the fly. -/
def GetLegacyAttributes (a : TextAttribute) : Nat :=
  (a.foreground.GetIndex &&& FG_ATTRS) |||
  ((a.background.GetIndex &&& FG_ATTRS) <<< 4) |||
  (a.wAttrLegacy &&& META_ATTRS) |||
  (if a.isBold then FOREGROUND_INTENSITY else 0)

/-- Modelled from the spec: newer-generation setter for the boldness field
(used by `src/types/sgrStack.cpp`; its TextAttribute header is absent). -/
def SetBold (a : TextAttribute) (b : Bool) : TextAttribute := { a with isBold := b }

/-- Modelled from the spec: faintness flag getter of the newer generation. -/
def IsFaint (a : TextAttribute) : Bool := a.isFaint

/-- Modelled from the spec: faintness flag setter of the newer generation. -/
def SetFaint (a : TextAttribute) (b : Bool) : TextAttribute := { a with isFaint := b }

/-- Modelled from the spec: italics flag getter of the newer generation. -/
def IsItalic (a : TextAttribute) : Bool := a.isItalic

/-- Modelled from the spec: italics flag setter of the newer generation. -/
def SetItalic (a : TextAttribute) (b : Bool) : TextAttribute := { a with isItalic := b }

/-- Modelled from the spec: underline getter of the newer generation (the
underline meta flag lives in the legacy underscore bit). -/
def IsUnderlined (a : TextAttribute) : Bool := a.IsBottomHorizontalDisplayed

/-- Modelled from the spec: underline setter of the newer generation. -/
def SetUnderlined (a : TextAttribute) (b : Bool) : TextAttribute :=
  a.SetBottomHorizontalDisplayed b

/-- Modelled from the spec: blink flag getter of the newer generation. -/
def IsBlinking (a : TextAttribute) : Bool := a.isBlinking

/-- Modelled from the spec: blink flag setter of the newer generation. -/
def SetBlinking (a : TextAttribute) (b : Bool) : TextAttribute := { a with isBlinking := b }

/-- Modelled from the spec: invisible flag getter of the newer generation. -/
def IsInvisible (a : TextAttribute) : Bool := a.isInvisible

/-- Modelled from the spec: invisible flag setter of the newer generation. -/
def SetInvisible (a : TextAttribute) (b : Bool) : TextAttribute := { a with isInvisible := b }

/-- Modelled from the spec: crossed-out flag getter of the newer generation. -/
def IsCrossedOut (a : TextAttribute) : Bool := a.isCrossedOut

/-- Modelled from the spec: crossed-out flag setter of the newer generation. -/
def SetCrossedOut (a : TextAttribute) (b : Bool) : TextAttribute := { a with isCrossedOut := b }

/-- Modelled from the spec: doubly-underlined flag getter of the newer
generation. -/
def IsDoublyUnderlined (a : TextAttribute) : Bool := a.isDoublyUnderlined

/-- Modelled from the spec: doubly-underlined flag setter of the newer
generation. -/
def SetDoublyUnderlined (a : TextAttribute) (b : Bool) : TextAttribute :=
  { a with isDoublyUnderlined := b }

/-- TextAttribute::_GetRgbForeground: resolves the stored foreground channel,
passing the boldness flag as the brighten argument. -/
def _GetRgbForeground (a : TextAttribute) (colorTable : Nat → Nat)
    (defaultColor : Nat) : Nat :=
  a.foreground.GetColor colorTable defaultColor a.isBold

/-- TextAttribute::_GetRgbBackground: resolves the stored background channel,
always passing `false` as the brighten argument. -/
def _GetRgbBackground (a : TextAttribute) (colorTable : Nat → Nat)
    (defaultColor : Nat) : Nat :=
  a.background.GetColor colorTable defaultColor false

/-- TextAttribute::CalculateRgbForeground: displayed foreground color; swaps
to the background channel under reverse video. -/
def CalculateRgbForeground (a : TextAttribute) (colorTable : Nat → Nat)
    (defaultFgColor defaultBgColor : Nat) : Nat :=
  if a.IsReverseVideo then a._GetRgbBackground colorTable defaultBgColor
  else a._GetRgbForeground colorTable defaultFgColor

/-- TextAttribute::CalculateRgbBackground: displayed background color; swaps
to the foreground channel under reverse video. -/
def CalculateRgbBackground (a : TextAttribute) (colorTable : Nat → Nat)
    (defaultFgColor defaultBgColor : Nat) : Nat :=
  if a.IsReverseVideo then a._GetRgbForeground colorTable defaultFgColor
  else a._GetRgbBackground colorTable defaultBgColor

end TextAttribute

/-- Default-constructed TextAttribute (all members zero). -/
def TextAttribute.defaultAttr : TextAttribute := {}

namespace TypesImpl

/-- SgrSaveRestoreStackOptions enumerand values, as pinned by the per-case
comments in src/types/sgrStack.cpp (the DispatchTypes header is absent from
the sources): Boldness = 1, Faintness = 2, Italics = 3, Underline = 4,
Blink = 5, Negative = 7, Invisible = 8, CrossedOut = 9,
SaveForegroundColor = 10, SaveBackgroundColor = 11, DoublyUnderlined = 21,
Max = DoublyUnderlined. The bitset size is Max + 1. -/
def attrBitsetSize : Nat := 22

/-- Bitset value with every one of the 22 bits set (`validParts.set()`). -/
def allBits : Nat := 2 ^ attrBitsetSize - 1

/-- State of the bitset-keyed SgrStack of src/types/sgrStack.cpp:
`_nextPushIndex`, `_numSavedAttrs`, and the ten `(snapshot, validMask)`
slots of `_storedSgrAttributes`. -/
structure SgrStack where
  nextPushIndex : Nat := 0
  numSavedAttrs : Nat := 0
  stored : List (TextAttribute × Nat) := List.replicate 10 (TextAttribute.defaultAttr, 0)
deriving DecidableEq

namespace SgrStack

/-- SgrStack::SgrStack of src/types/sgrStack.cpp. -/
def fresh : SgrStack := {}

/-- SgrStack::Push of src/types/sgrStack.cpp: an empty option list saves
everything; otherwise each option value below the bitset size sets its bit and
out-of-range values are ignored; the slot at `_nextPushIndex` is always
written and the ring index advances modulo 10, while `_numSavedAttrs`
saturates at 10. -/
def Push (s : SgrStack) (currentAttributes : TextAttribute)
    (options : List Nat) : SgrStack :=
  let validParts :=
    if options = [] then allBits
    else options.foldl (fun m o => if o < attrBitsetSize then m ||| (1 <<< o) else m) 0
  { nextPushIndex := (s.nextPushIndex + 1) % 10,
    numSavedAttrs := if s.numSavedAttrs < 10 then s.numSavedAttrs + 1 else s.numSavedAttrs,
    stored := s.stored.set s.nextPushIndex (currentAttributes, validParts) }

/-- SgrStack::_CombineWithCurrentAttributes of src/types/sgrStack.cpp: merges
the saved attribute onto the current one, field by field, for each bit present
in the valid-parts bitset. -/
def _CombineWithCurrentAttributes (currentAttributes savedAttribute : TextAttribute)
    (validParts : Nat) : TextAttribute :=
  let result := currentAttributes
  let result := if validParts.testBit 1 then result.SetBold savedAttribute.IsBold else result
  let result := if validParts.testBit 2 then result.SetFaint savedAttribute.IsFaint else result
  let result := if validParts.testBit 3 then result.SetItalic savedAttribute.IsItalic else result
  let result := if validParts.testBit 4 then result.SetUnderlined savedAttribute.IsUnderlined else result
  let result := if validParts.testBit 5 then result.SetBlinking savedAttribute.IsBlinking else result
  let result :=
    if validParts.testBit 7 then
      if savedAttribute.IsReverseVideo then
        if !result.IsReverseVideo then result.Invert else result
      else
        if result.IsReverseVideo then result.Invert else result
    else result
  let result := if validParts.testBit 8 then result.SetInvisible savedAttribute.IsInvisible else result
  let result := if validParts.testBit 9 then result.SetCrossedOut savedAttribute.IsCrossedOut else result
  let result := if validParts.testBit 10 then result.SetForegroundFrom savedAttribute else result
  let result := if validParts.testBit 11 then result.SetBackgroundFrom savedAttribute else result
  if validParts.testBit 21 then result.SetDoublyUnderlined savedAttribute.IsDoublyUnderlined else result

/-- SgrStack::Pop of src/types/sgrStack.cpp: with nothing saved, returns the
current attributes unchanged; otherwise steps the ring index back, and either
returns the stored snapshot verbatim (full mask) or merges it onto the current
attributes. -/
def Pop (s : SgrStack) (currentAttributes : TextAttribute) :
    SgrStack × TextAttribute :=
  if 0 < s.numSavedAttrs then
    let idx := if s.nextPushIndex = 0 then 9 else s.nextPushIndex - 1
    let entry := s.stored.getD idx (TextAttribute.defaultAttr, 0)
    ({ s with numSavedAttrs := s.numSavedAttrs - 1, nextPushIndex := idx },
     if entry.2 = allBits then entry.1
     else _CombineWithCurrentAttributes currentAttributes entry.1 entry.2)
  else (s, currentAttributes)

/-- Sequence of full (empty-option-list) pushes, the list holding the current
attributes at each successive push. -/
def pushAll (s : SgrStack) (l : List TextAttribute) : SgrStack :=
  l.foldl (fun st c => st.Push c []) s

/-- Folded pops: pops `n` times, each pop receiving the attribute produced by
the previous one as the then-current attributes. -/
def popAll : SgrStack → Nat → TextAttribute → SgrStack × TextAttribute
  | s, 0, d => (s, d)
  | s, n + 1, d =>
    let r := popAll s n d
    Pop r.1 r.2

end SgrStack

end TypesImpl

namespace BufferOut

/-- UINT32_MAX: the all-valid marker of the flag-keyed stack. -/
def UINT32_MAX : Nat := 4294967295

/-- GraphicsOptions values used by the flag-keyed stack, per the xterm
XTPUSHSGR table quoted in src/buffer/out/sgrStack.hpp (the DispatchTypes
header is absent from the sources): Bold = 1, Underlined = 4, Inverse = 7,
Foreground color = 10, Background color = 11. -/
def BoldBright : Nat := 1

/-- SGR 4, underline. -/
def Underline : Nat := 4

/-- SGR 7, reverse video. -/
def Negative : Nat := 7

/-- XTPUSHSGR code 10, save the foreground color. -/
def SaveForegroundColor : Nat := 10

/-- XTPUSHSGR code 11, save the background color. -/
def SaveBackgroundColor : Nat := 11

/-- SgrStack::_GraphicsOptionToFlag of src/buffer/out/sgrStack.hpp: shifts a
bit into place for option values below 32; for larger values the function
returns the raw option value itself (the comment says the bad parameter will
be ignored, but no masking happens). -/
def _GraphicsOptionToFlag (option : Nat) : Nat :=
  if option < 32 then 1 <<< option else option

/-- State of the flag-keyed SgrStack of src/buffer/out/sgrStack.hpp:
`_numSgrPushes` plus the ten slots of the parallel arrays
`_storedSgrAttributes` / `_validAttributes`, zipped into one list. -/
structure SgrStack where
  numSgrPushes : Nat := 0
  stored : List (TextAttribute × Nat) := List.replicate 10 (TextAttribute.defaultAttr, 0)
deriving DecidableEq

namespace SgrStack

/-- SgrStack::SgrStack of src/buffer/out/sgrStack.hpp (zero-initialized). -/
def fresh : SgrStack := {}

/-- SgrStack::Push of src/buffer/out/sgrStack.hpp: an empty option list saves
everything (mask UINT32_MAX); otherwise the flags of all options are OR-ed
together; the entry is stored only while fewer than 10 pushes are live, and
the push counter saturates at 100. -/
def Push (s : SgrStack) (currentAttributes : TextAttribute)
    (options : List Nat) : SgrStack :=
  let validParts :=
    if options = [] then UINT32_MAX
    else options.foldl (fun m o => m ||| _GraphicsOptionToFlag o) 0
  { numSgrPushes := if s.numSgrPushes < 100 then s.numSgrPushes + 1 else s.numSgrPushes,
    stored :=
      if s.numSgrPushes < 10 then s.stored.set s.numSgrPushes (currentAttributes, validParts)
      else s.stored }

/-- SgrStack::_CombineWithCurrentAttributes of src/buffer/out/sgrStack.hpp:
merges bold, underline, reverse video and the two color channels of the saved
attribute onto the current one, for each flag present in the valid-parts
word. -/
def _CombineWithCurrentAttributes (currentAttributes savedAttribute : TextAttribute)
    (validParts : Nat) : TextAttribute :=
  let result := currentAttributes
  let result :=
    if _GraphicsOptionToFlag BoldBright &&& validParts ≠ 0 then
      if savedAttribute.IsBold then result.Embolden else result.Debolden
    else result
  let result :=
    if _GraphicsOptionToFlag Underline &&& validParts ≠ 0 then
      if savedAttribute.IsUnderline then result.EnableUnderline else result.DisableUnderline
    else result
  let result :=
    if _GraphicsOptionToFlag Negative &&& validParts ≠ 0 then
      if savedAttribute.IsReverseVideo then
        if !result.IsReverseVideo then result.Invert else result
      else
        if result.IsReverseVideo then result.Invert else result
    else result
  let result :=
    if _GraphicsOptionToFlag SaveForegroundColor &&& validParts ≠ 0 then
      result.SetForegroundFrom savedAttribute
    else result
  if _GraphicsOptionToFlag SaveBackgroundColor &&& validParts ≠ 0 then
    result.SetBackgroundFrom savedAttribute
  else result

/-- SgrStack::Pop of src/buffer/out/sgrStack.hpp: with nothing saved, returns
the current attributes unchanged; otherwise decrements the push counter, and
if the new depth is within the ten retained slots, restores from that slot
(verbatim for a full mask, merged otherwise); pops at depths beyond the
retained slots return the current attributes unchanged. -/
def Pop (s : SgrStack) (currentAttributes : TextAttribute) :
    SgrStack × TextAttribute :=
  if 0 < s.numSgrPushes then
    let n := s.numSgrPushes - 1
    if n < 10 then
      let entry := s.stored.getD n (TextAttribute.defaultAttr, 0)
      ({ s with numSgrPushes := n },
       if entry.2 = UINT32_MAX then entry.1
       else _CombineWithCurrentAttributes currentAttributes entry.1 entry.2)
    else ({ s with numSgrPushes := n }, currentAttributes)
  else (s, currentAttributes)

/-- Sequence of full (empty-option-list) pushes, the list holding the current
attributes at each successive push. -/
def pushSeq (s : SgrStack) (l : List TextAttribute) : SgrStack :=
  l.foldl (fun st c => st.Push c []) s

/-- Folded pops: pops `n` times, each pop receiving the attribute produced by
the previous one as the then-current attributes. -/
def popN : SgrStack → Nat → TextAttribute → SgrStack × TextAttribute
  | s, 0, d => (s, d)
  | s, n + 1, d =>
    let r := popN s n d
    Pop r.1 r.2

end SgrStack

end BufferOut

namespace AdaptDispatch

/-- SHRT_MAX, the upper bound of the signed 16-bit host coordinate space. -/
def SHRT_MAX : Nat := 32767

/-- Viewport rectangle in absolute buffer coordinates (SMALL_RECT srWindow);
as in the sources, Bottom and Right are exclusive. -/
structure Viewport where
  top : Int := 0
  bottom : Int := 0
  left : Int := 0
  right : Int := 0
deriving DecidableEq

/-- Absolute buffer coordinate of the cursor (COORD). -/
structure Coord where
  x : Int := 0
  y : Int := 0
deriving DecidableEq

/-- Modelled from the spec: the host-owned state AdaptDispatch queries and
mutates (adaptDispatch.cpp is absent from the sources; the model follows the
cursor/viewport/margin description in the specification and the expectations of the
unit tests in src/terminal/adapter/ut_adapter/adapterTest.cpp, which pin the
observable behavior). Host capability calls are assumed to succeed. -/
structure State where
  cursor : Coord := {}
  viewport : Viewport := {}
  margins : Int × Int := (0, 0)
deriving DecidableEq

/-- Clamp an X coordinate into the column range of the viewport. -/
def clampX (s : State) (x : Int) : Int :=
  max (min x (s.viewport.right - 1)) s.viewport.left

/-- Clamp a Y coordinate into the row range of the viewport. -/
def clampY (s : State) (y : Int) : Int :=
  max (min y (s.viewport.bottom - 1)) s.viewport.top

/-- Direction selector for the relative cursor-movement verbs. -/
inductive CursorDirection where
  | up | down | right | left | nextLine | prevLine
deriving DecidableEq

/-- Modelled from the spec: AdaptDispatch::_CursorMovement — an unsigned
distance is rejected (failure, state untouched) when it cannot be represented
as a signed 16-bit delta; otherwise the cursor moves by the delta, clamped
into the viewport, with next-line/prev-line also resetting the column to the
left edge of the viewport. -/
def _CursorMovement (dir : CursorDirection) (distance : Nat) (s : State) :
    Bool × State :=
  if SHRT_MAX < distance then (false, s)
  else
    let d : Int := distance
    match dir with
    | .up => (true, { s with cursor := ⟨s.cursor.x, clampY s (s.cursor.y - d)⟩ })
    | .down => (true, { s with cursor := ⟨s.cursor.x, clampY s (s.cursor.y + d)⟩ })
    | .right => (true, { s with cursor := ⟨clampX s (s.cursor.x + d), s.cursor.y⟩ })
    | .left => (true, { s with cursor := ⟨clampX s (s.cursor.x - d), s.cursor.y⟩ })
    | .nextLine => (true, { s with cursor := ⟨s.viewport.left, clampY s (s.cursor.y + d)⟩ })
    | .prevLine => (true, { s with cursor := ⟨s.viewport.left, clampY s (s.cursor.y - d)⟩ })

/-- Modelled from the spec: AdaptDispatch::CursorPosition. A zero row or
column is a failure (CursorPositionTest Test 8: the parser, not this layer,
maps 0 to 1); inputs whose 0-based value, or whose sum with the viewport
origin, overflows a signed 16-bit value fail with the state untouched; the
resulting position is clamped into the viewport. -/
def CursorPosition (row col : Nat) (s : State) : Bool × State :=
  if row = 0 ∨ col = 0 then (false, s)
  else if SHRT_MAX < row - 1 ∨ SHRT_MAX < col - 1 then (false, s)
  else
    let y : Int := s.viewport.top + ((row : Int) - 1)
    let x : Int := s.viewport.left + ((col : Int) - 1)
    if (SHRT_MAX : Int) < y ∨ (SHRT_MAX : Int) < x then (false, s)
    else (true, { s with cursor := ⟨clampX s x, clampY s y⟩ })

/-- Modelled from the spec: AdaptDispatch::CursorHorizontalPositionAbsolute —
the single-axis column variant of CursorPosition (0 fails, per
CursorSingleDimensionMoveTest Test 8). -/
def CursorHorizontalPositionAbsolute (col : Nat) (s : State) : Bool × State :=
  if col = 0 then (false, s)
  else if SHRT_MAX < col - 1 then (false, s)
  else
    let x : Int := s.viewport.left + ((col : Int) - 1)
    if (SHRT_MAX : Int) < x then (false, s)
    else (true, { s with cursor := ⟨clampX s x, s.cursor.y⟩ })

/-- Modelled from the spec: AdaptDispatch::VerticalLinePositionAbsolute — the
single-axis row variant of CursorPosition (0 fails). -/
def VerticalLinePositionAbsolute (row : Nat) (s : State) : Bool × State :=
  if row = 0 then (false, s)
  else if SHRT_MAX < row - 1 then (false, s)
  else
    let y : Int := s.viewport.top + ((row : Int) - 1)
    if (SHRT_MAX : Int) < y then (false, s)
    else (true, { s with cursor := ⟨s.cursor.x, clampY s y⟩ })

/-- Modelled from the spec: AdaptDispatch::SetTopBottomScrollingMargins — a
zero top defaults to line 1, a zero bottom to the viewport height; after
defaulting the region must satisfy top < bottom ≤ height or the verb fails
with no mutation; a region covering the whole screen clears the margins
(stored as (0,0)), any other valid region is stored 0-based. -/
def SetTopBottomScrollingMargins (top bottom : Nat) (s : State) : Bool × State :=
  let screenHeight : Int := s.viewport.bottom - s.viewport.top
  let actualTop : Int := if top = 0 then 1 else (top : Int)
  let actualBottom : Int := if bottom = 0 then screenHeight else (bottom : Int)
  if actualTop < actualBottom ∧ actualBottom ≤ screenHeight then
    if actualTop = 1 ∧ actualBottom = screenHeight then
      (true, { s with margins := (0, 0) })
    else
      (true, { s with margins := (actualTop - 1, actualBottom - 1) })
  else (false, s)

end AdaptDispatch

namespace TestGetSet

/-- Host-side state observed by the extended-color path of the unit-test host
mock: the ambient attribute and the using-RGB indicator. -/
structure XtermState where
  _attribute : TextAttribute := {}
  usingRgbColor : Bool := false
deriving DecidableEq

/-- Xterm-index-to-Windows-index conversion performed inline by the mock
(adapterTest.cpp lines 237-241): swap the red and blue bit positions of the
3-bit color, preserving the bright bit. -/
def winIndex (iXtermTableEntry : Nat) : Nat :=
  (if iXtermTableEntry &&& 0x01 ≠ 0 then 0x4 else 0x0) |||
  (if iXtermTableEntry &&& 0x02 ≠ 0 then 0x2 else 0x0) |||
  (if iXtermTableEntry &&& 0x04 ≠ 0 then 0x1 else 0x0) |||
  (if iXtermTableEntry &&& 0x08 ≠ 0 then 0x8 else 0x0)

/-- TestGetSet::SetConsoleXtermTextAttribute (adapterTest.cpp lines 222-249):
the mock treats a table entry as an RGB color exactly when it is strictly
greater than 16 (its own comment says "if the table entry is less than 16,
keep using the legacy attr"); otherwise it folds the converted Windows index
into the requested nibble of the current legacy attributes. -/
def SetConsoleXtermTextAttribute (iXtermTableEntry : Nat) (fIsForeground : Bool)
    (st : XtermState) : XtermState :=
  let usingRgb := 16 < iXtermTableEntry
  if usingRgb then { st with usingRgbColor := true }
  else
    let iWinEntry := winIndex iXtermTableEntry
    let legacyAttr := st._attribute.GetLegacyAttributes
    let legacyAttr2 :=
      if fIsForeground then (legacyAttr &&& 0xF0) ||| iWinEntry
      else (iWinEntry <<< 4) ||| (legacyAttr &&& 0x0F)
    { _attribute := st._attribute.SetFromLegacy legacyAttr2, usingRgbColor := false }

/-- Modelled from the spec: the two-stage extended color selection of
AdaptDispatch::SetGraphicsRendition (adaptDispatch.cpp is absent from the
sources) — after `ForegroundExtended`/`BackgroundExtended` and the
palette-index mode option, the index value in [0,255] is forwarded to the
SetConsoleXtermTextAttribute call of the host. -/
def SetGraphicsRenditionXterm256 (fIsForeground : Bool) (index : Nat)
    (st : XtermState) : Bool × XtermState :=
  if index ≤ 255 then (true, SetConsoleXtermTextAttribute index fIsForeground st)
  else (false, st)

end TestGetSet

/-- Example attribute: legacy red foreground on black, nothing else set. -/
def exAttrRed : TextAttribute := { foreground := .indexed 4, background := .indexed 0 }

/-- Example attribute with several saveable fields set (reverse video, bold,
faint, doubly underlined). -/
def exAttrA : TextAttribute :=
  { wAttrLegacy := COMMON_LVB_REVERSE_VIDEO, foreground := .indexed 2,
    background := .indexed 5, isBold := true, isFaint := true,
    isDoublyUnderlined := true }

/-- Example attribute standing for changed current attributes. -/
def exAttrC : TextAttribute :=
  { wAttrLegacy := COMMON_LVB_UNDERSCORE, foreground := .indexed 1,
    background := .indexed 6 }

/-- Example attribute standing for changed current attributes, bold. -/
def exBoldC : TextAttribute :=
  { foreground := .indexed 1, background := .indexed 6, isBold := true }

/-- Example attribute: bold with a dim (non-intensity) legacy foreground. -/
def boldGreen : TextAttribute :=
  { foreground := .indexed 2, background := .indexed 0, isBold := true }

/-- Meta word assembled from one boolean per legacy meta bit: reverse video,
underscore, the three grid lines and the two double-byte indicators — every
combination of the meta bits representable in the legacy word. -/
def metaWord (rv un gh gl gr lb tb : Bool) : Nat :=
  (if rv then COMMON_LVB_REVERSE_VIDEO else 0) |||
  (if un then COMMON_LVB_UNDERSCORE else 0) |||
  (if gh then COMMON_LVB_GRID_HORIZONTAL else 0) |||
  (if gl then COMMON_LVB_GRID_LVERTICAL else 0) |||
  (if gr then COMMON_LVB_GRID_RVERTICAL else 0) |||
  (if lb then COMMON_LVB_LEADING_BYTE else 0) |||
  (if tb then COMMON_LVB_TRAILING_BYTE else 0)

/-- Generic attribute of the legacy-representable subset: 4-bit foreground and
background indices, an arbitrary combination of the legacy meta bits, and
boldness clear. -/
def legacyAttr (f b : Fin 16) (rv un gh gl gr lb tb : Bool) : TextAttribute :=
  { wAttrLegacy := metaWord rv un gh gl gr lb tb,
    foreground := .indexed f.val, background := .indexed b.val }

/-- Example dispatch state mirroring the PrepData viewport of the unit tests
(top 20, bottom 49, left 30, right 59), cursor at the center. -/
def exState : AdaptDispatch.State :=
  { cursor := ⟨45, 35⟩, viewport := { top := 20, bottom := 49, left := 30, right := 59 } }

/-- Example dispatch state whose viewport origin sits at SHRT_MAX, so adding
any positive offset to it overflows a signed 16-bit value (mirrors Test 5 of
CursorPositionTest). -/
def exStateOv : AdaptDispatch.State :=
  { cursor := ⟨32768, 32768⟩,
    viewport := { top := 32767, bottom := 32770, left := 32767, right := 32770 } }

/-- Example dispatch state mirroring the ScrollMarginsTest viewport
(top 0, bottom 8: screen height 8). -/
def exMarginState : AdaptDispatch.State :=
  { cursor := ⟨0, 0⟩, viewport := { top := 0, bottom := 8, left := 0, right := 8 } }

/-- C10: for every TextAttribute, `IsTrailingByte` returns the same value as
`IsLeadingByte` — both predicates test the COMMON_LVB_LEADING_BYTE flag, so
the trailing-byte meta bit is never reported by the trailing-byte predicate. -/
theorem isTrailingByte_eq_isLeadingByte (a : TextAttribute) :
    a.IsTrailingByte = a.IsLeadingByte := rfl

/-- C7: for every TextAttribute, palette table and pair of default colors, the
two displayed-color calculations swap the color channels before resolution
exactly when reverse video is set, and the boldness-based brighten flag is
passed exactly when the foreground channel is being resolved — the background
channel is always resolved with brighten false, regardless of `isBold`. -/
theorem calculateRgb_swaps_on_reverse_and_brightens_fg_only
    (a : TextAttribute) (colorTable : Nat → Nat) (defaultFg defaultBg : Nat) :
    (a.CalculateRgbForeground colorTable defaultFg defaultBg =
      if a.IsReverseVideo then a.background.GetColor colorTable defaultBg false
      else a.foreground.GetColor colorTable defaultFg a.isBold) ∧
    (a.CalculateRgbBackground colorTable defaultFg defaultBg =
      if a.IsReverseVideo then a.foreground.GetColor colorTable defaultFg a.isBold
      else a.background.GetColor colorTable defaultBg false) := by
  refine ⟨?_, ?_⟩ <;>
    · by_cases h : a.IsReverseVideo <;>
        simp [TextAttribute.CalculateRgbForeground, TextAttribute.CalculateRgbBackground,
          TextAttribute._GetRgbForeground, TextAttribute._GetRgbBackground, h]

/-- Reading back the slot just written: `getD` after `set` at the same
in-range index yields the written value. -/
theorem getD_set_self {α : Type} (l : List α) (i : Nat) (x d : α)
    (h : i < l.length) : (l.set i x).getD i d = x := by
  induction l generalizing i with
  | nil => simp at h
  | cons hd tl ih =>
    cases i with
    | zero => rfl
    | succ j => exact ih j (by simpa using h)

/-- Reading an untouched slot: `getD` after `set` at a different index is
unchanged. -/
theorem getD_set_ne {α : Type} (l : List α) {i j : Nat} (x : α) (d : α)
    (h : i ≠ j) : (l.set i x).getD j d = l.getD j d := by
  induction l generalizing i j with
  | nil => rfl
  | cons hd tl ih =>
    cases i with
    | zero => cases j with
      | zero => exact absurd rfl h
      | succ k => rfl
    | succ i0 => cases j with
      | zero => rfl
      | succ k => exact ih (fun hc => h (by omega))

namespace TypesImpl

/-- Pushing a single in-range option and immediately popping against arbitrary
current attributes reads back exactly the just-written slot and merges it with
the single-bit valid mask. -/
theorem pop_push_single (s : SgrStack) (a c : TextAttribute) (o : Nat)
    (h1 : s.stored.length = 10) (h2 : s.nextPushIndex < 10)
    (h3 : o < attrBitsetSize) (h4 : (1 <<< o : Nat) ≠ allBits) :
    ((s.Push a [o]).Pop c).2 =
      SgrStack._CombineWithCurrentAttributes c a (1 <<< o) := by
  have hidx : (if (s.nextPushIndex + 1) % 10 = 0 then 9 else (s.nextPushIndex + 1) % 10 - 1)
      = s.nextPushIndex := by
    rcases Nat.lt_or_ge s.nextPushIndex 9 with h | h
    · have hmod : (s.nextPushIndex + 1) % 10 = s.nextPushIndex + 1 :=
        Nat.mod_eq_of_lt (by omega)
      rw [hmod, if_neg (by omega)]
      omega
    · have h9 : s.nextPushIndex = 9 := by omega
      rw [h9]
      decide
  simp only [SgrStack.Push, SgrStack.Pop, List.cons_ne_nil, if_false,
    List.foldl_cons, List.foldl_nil, if_pos h3, Nat.zero_or]
  rw [if_pos (by split <;> omega)]
  simp only [hidx]
  rw [getD_set_self _ _ _ _ (by omega), if_neg h4]

end TypesImpl

/-- C6: partial-save law of the bitset-keyed stack — pushing with option set
containing only Boldness and popping against arbitrary (changed) current
attributes `c` returns `c` with only its boldness field replaced by the saved
boldness of the saved attribute; more generally, each single valid-mask bit makes the pop
set exactly the named field to the saved value, with Negative acting as an
invert-only-when-different toggle and the save-color options copying the whole
channel including its legacy color bits. -/
theorem sgrStack_partial_restore_per_bit (s : TypesImpl.SgrStack)
    (a c : TextAttribute)
    (h1 : s.stored.length = 10) (h2 : s.nextPushIndex < 10) :
    (((s.Push a [1]).Pop c).2 = { c with isBold := a.isBold }) ∧
    (((s.Push a [2]).Pop c).2 = { c with isFaint := a.isFaint }) ∧
    (((s.Push a [3]).Pop c).2 = { c with isItalic := a.isItalic }) ∧
    (((s.Push a [4]).Pop c).2 = c.SetUnderlined a.IsUnderlined) ∧
    (((s.Push a [5]).Pop c).2 = { c with isBlinking := a.isBlinking }) ∧
    (((s.Push a [7]).Pop c).2 =
      if a.IsReverseVideo ≠ c.IsReverseVideo then c.Invert else c) ∧
    (((s.Push a [8]).Pop c).2 = { c with isInvisible := a.isInvisible }) ∧
    (((s.Push a [9]).Pop c).2 = { c with isCrossedOut := a.isCrossedOut }) ∧
    (((s.Push a [10]).Pop c).2 = c.SetForegroundFrom a) ∧
    (((s.Push a [11]).Pop c).2 = c.SetBackgroundFrom a) ∧
    (((s.Push a [21]).Pop c).2 = { c with isDoublyUnderlined := a.isDoublyUnderlined }) := by
  refine ⟨?_, ?_, ?_, ?_, ?_, ?_, ?_, ?_, ?_, ?_, ?_⟩ <;>
    rw [TypesImpl.pop_push_single s a c _ h1 h2 (by decide) (by decide)]
  · rfl
  · rfl
  · rfl
  · rfl
  · rfl
  · show TypesImpl.SgrStack._CombineWithCurrentAttributes c a 128 = _
    by_cases ha : a.IsReverseVideo <;> by_cases hc : c.IsReverseVideo <;>
      simp +decide [TypesImpl.SgrStack._CombineWithCurrentAttributes, ha, hc]
  · rfl
  · rfl
  · rfl
  · rfl
  · rfl

/-- C6 witness: concrete instance of the partial-save law — push only the
boldness of `exAttrA` onto a fresh bitset-keyed stack, then pop against the
changed attributes `exAttrC`: only boldness is restored. -/
theorem sgrStack_partial_restore_witness :
    ((TypesImpl.SgrStack.fresh.Push exAttrA [1]).Pop exAttrC).2 =
      { exAttrC with isBold := exAttrA.isBold } :=
  (sgrStack_partial_restore_per_bit TypesImpl.SgrStack.fresh exAttrA exAttrC
    (by decide) (by decide)).1

/-- C4: option values outside the known range in the two Push implementations.
The bitset-keyed Push (src/types/sgrStack.cpp) drops the out-of-range option
100 silently — the push still happens and holds an empty valid mask, so the
subsequent pop returns the current attributes of the caller unchanged. The
flag-keyed Push (src/buffer/out/sgrStack.hpp) fails this contract at option
35: _GraphicsOptionToFlag returns the raw value 35 (bits 0, 1 and 5) instead
of dropping it, so the valid mask acquires the BoldBright bit and the
subsequent pop overwrites the boldness of the caller instead of being a no-op. -/
theorem invalid_push_option_eval :
    (((TypesImpl.SgrStack.fresh.Push exAttrRed [100]).Pop exBoldC).2 = exBoldC) ∧
    ((TypesImpl.SgrStack.fresh.Push exAttrRed [100]).numSavedAttrs = 1) ∧
    (BufferOut._GraphicsOptionToFlag 35 = 35) ∧
    (((BufferOut.SgrStack.fresh.Push exAttrRed [35]).Pop exBoldC).2 ≠ exBoldC) ∧
    (((BufferOut.SgrStack.fresh.Push exAttrRed [35]).Pop exBoldC).2 = exBoldC.Debolden) := by
  decide

/-- C9: the xterm-to-Windows index conversion of the host mock realizes the
claimed fixed permutation on indices 0..15 (index 2 yields FOREGROUND_GREEN
with the RGB indicator off, index 9 yields the bright-red background nibble),
but the boundary index 16 — which the claim (and the comment in the mock)
places in the genuine palette/RGB range — takes the legacy path: the mock
tests `16 < entry`, so entry 16 stores a legacy black channel with the RGB
indicator off. -/
theorem xterm256_boundary_eval :
    ((List.range 16).map TestGetSet.winIndex =
      [0, 4, 2, 6, 1, 5, 3, 7, 8, 12, 10, 14, 9, 13, 11, 15]) ∧
    ((TestGetSet.SetGraphicsRenditionXterm256 true 2 {}).2._attribute.foreground =
      .indexed 2) ∧
    ((TestGetSet.SetGraphicsRenditionXterm256 true 2 {}).2.usingRgbColor = false) ∧
    ((TestGetSet.SetGraphicsRenditionXterm256 false 9
        (TestGetSet.SetGraphicsRenditionXterm256 true 2 {}).2).2._attribute.background =
      .indexed 12) ∧
    ((TestGetSet.SetGraphicsRenditionXterm256 true 42 {}).2.usingRgbColor = true) ∧
    ((TestGetSet.SetGraphicsRenditionXterm256 true 16 {}).2.usingRgbColor = false) ∧
    ((TestGetSet.SetGraphicsRenditionXterm256 true 16 {}).2._attribute.foreground =
      .indexed 0) := by
  decide

/-- C5 counterexample: a bold attribute with a dim legacy foreground lies in
the claimed set (legacy 4-bit channels, representable meta flags), yet the
legacy round-trip does not restore it — GetLegacyAttributes folds boldness
into FOREGROUND_INTENSITY, which SetFromLegacy then decodes as a brightened
foreground index while leaving the boldness flag set. -/
theorem setFromLegacy_getLegacy_roundtrip_counterexample :
    boldGreen.SetFromLegacy boldGreen.GetLegacyAttributes ≠ boldGreen := by
  decide

/-- Monotonicity of powers of two. -/
theorem two_pow_le {i k : Nat} (h : k ≤ i) : (2 : Nat) ^ k ≤ 2 ^ i :=
  Nat.pow_le_pow_right (by norm_num) h

/-- Bits at or above the width of a bounded number are clear. -/
theorem testBit_false_of_lt_of_le {n k i : Nat} (h : n < 2 ^ k) (hk : k ≤ i) :
    n.testBit i = false :=
  Nat.testBit_eq_false_of_lt (lt_of_lt_of_le h (two_pow_le hk))

/-- Bit test of a conditionally present single-bit flag. -/
theorem testBit_ite_two_pow (c : Bool) (k i : Nat) :
    (if c then 2 ^ k else 0 : Nat).testBit i = (c && decide (k = i)) := by
  cases c <;> simp [Nat.testBit_two_pow]

/-- Word-level legacy round-trip: a word packed from two 4-bit color nibbles
and a meta part confined to the META_ATTRS bit positions yields back each
component — the meta part with the double-byte bits cleared, and the two
nibbles exactly. -/
theorem legacy_word_roundtrip (F B m : Nat) (hf : F < 16) (hb : B < 16)
    (hm : ∀ i, m.testBit i = true → 8 ≤ i ∧ i ≤ 15 ∧ i ≠ 13) :
    (clearFlags (((F &&& FG_ATTRS) ||| ((B &&& FG_ATTRS) <<< 4) ||| (m &&& META_ATTRS)) &&&
        META_ATTRS) COMMON_LVB_SBCSDBCS = clearFlags m COMMON_LVB_SBCSDBCS) ∧
    (((F &&& FG_ATTRS) ||| ((B &&& FG_ATTRS) <<< 4) ||| (m &&& META_ATTRS)) &&& FG_ATTRS = F) ∧
    ((((F &&& FG_ATTRS) ||| ((B &&& FG_ATTRS) <<< 4) ||| (m &&& META_ATTRS)) &&& BG_ATTRS) >>> 4
      = B) := by
  have hmm : m &&& META_ATTRS = m := by
    apply Nat.eq_of_testBit_eq
    intro i
    rw [show META_ATTRS = 2^8 ||| 2^9 ||| 2^10 ||| 2^11 ||| 2^12 ||| 2^14 ||| 2^15 from by decide]
    simp only [Nat.testBit_land, Nat.testBit_lor, Nat.testBit_two_pow]
    rcases h : m.testBit i with _ | _
    · simp
    · obtain ⟨h1, h2, h3⟩ := hm i h
      interval_cases i <;> simp_all
  rw [hmm]
  refine ⟨?_, ?_, ?_⟩
  · simp only [clearFlags]
    apply Nat.eq_of_testBit_eq
    intro i
    rw [show META_ATTRS = 2^8 ||| 2^9 ||| 2^10 ||| 2^11 ||| 2^12 ||| 2^14 ||| 2^15 from by decide,
      show FG_ATTRS = 2^4 - 1 from by decide,
      show WORD_MASK ^^^ COMMON_LVB_SBCSDBCS = (2^16 - 1) ^^^ (2^8 ||| 2^9) from by decide]
    simp only [Nat.testBit_land, Nat.testBit_lor, Nat.testBit_xor, Nat.testBit_shiftLeft,
      Nat.testBit_two_pow_sub_one, Nat.testBit_two_pow]
    rcases Nat.lt_or_ge i 8 with hi | hi
    · have hmi : m.testBit i = false := by
        rcases h : m.testBit i with _ | _
        · rfl
        · exact absurd (hm i h).1 (by omega)
      simp [hmi, show (8:Nat) ≠ i from by omega, show (9:Nat) ≠ i from by omega,
        show (10:Nat) ≠ i from by omega, show (11:Nat) ≠ i from by omega,
        show (12:Nat) ≠ i from by omega, show (14:Nat) ≠ i from by omega,
        show (15:Nat) ≠ i from by omega]
    · have hFi : F.testBit i = false := testBit_false_of_lt_of_le (by omega : F < 2^4) (by omega)
      have hB2 : B.testBit (i - 4) = false :=
        testBit_false_of_lt_of_le (by omega : B < 2^4) (by omega)
      simp [hFi, hB2, show ¬ i < 4 from by omega]
      rcases h : m.testBit i with _ | _
      · simp
      · obtain ⟨h3a, h3b, h3c⟩ := hm i h
        interval_cases i <;> simp_all
  · apply Nat.eq_of_testBit_eq
    intro i
    rw [show FG_ATTRS = 2^4 - 1 from by decide]
    simp only [Nat.testBit_land, Nat.testBit_lor, Nat.testBit_shiftLeft,
      Nat.testBit_two_pow_sub_one]
    rcases Nat.lt_or_ge i 4 with hi | hi
    · have hmi : m.testBit i = false := by
        rcases h : m.testBit i with _ | _
        · rfl
        · exact absurd (hm i h).1 (by omega)
      interval_cases i <;> simp [hmi]
    · have hFi : F.testBit i = false := testBit_false_of_lt_of_le (by omega : F < 2^4) hi
      simp [show ¬ i < 4 from by omega, hFi]
  · apply Nat.eq_of_testBit_eq
    intro i
    rw [show FG_ATTRS = 2^4 - 1 from by decide, show BG_ATTRS = (2^4 - 1) <<< 4 from by decide]
    simp only [Nat.testBit_land, Nat.testBit_lor, Nat.testBit_shiftLeft,
      Nat.testBit_shiftRight, Nat.testBit_two_pow_sub_one]
    rcases Nat.lt_or_ge i 4 with hi | hi
    · have hmi : m.testBit (4 + i) = false := by
        rcases h : m.testBit (4 + i) with _ | _
        · rfl
        · exact absurd (hm _ h).1 (by omega)
      have hFi : F.testBit (4 + i) = false :=
        testBit_false_of_lt_of_le (by omega : F < 2^4) (by omega)
      simp [hmi, hFi, show (4:Nat) + i - 4 = i from by omega, show 4 ≤ 4 + i from by omega,
        show 4 + i - 4 < 4 from by omega]
      exact fun _ => hi
    · have hBi : B.testBit i = false := testBit_false_of_lt_of_le (by omega : B < 2^4) hi
      simp [show ¬ (4 + i - 4 < 4) from by omega, hBi, show (4:Nat) + i - 4 = i from by omega]
      exact fun _ => hi

/-- C5 amended: for every attribute whose foreground and background are legacy
4-bit indices (all 16 by 16 pairs), every combination of the legacy-word meta
bits, and boldness clear (boldness is folded into FOREGROUND_INTENSITY by the
encoder and therefore not faithfully representable), decoding the encoded
legacy word restores the attribute exactly, except that the double-byte
indicator bits are cleared; no other field is touched. -/
theorem setFromLegacy_getLegacy_roundtrip_unbold (f b : Fin 16)
    (rv un gh gl gr lb tb : Bool) :
    (legacyAttr f b rv un gh gl gr lb tb).SetFromLegacy
        (legacyAttr f b rv un gh gl gr lb tb).GetLegacyAttributes =
      { legacyAttr f b rv un gh gl gr lb tb with
        wAttrLegacy := clearFlags (metaWord rv un gh gl gr lb tb) COMMON_LVB_SBCSDBCS } := by
  have hm : ∀ i, (metaWord rv un gh gl gr lb tb).testBit i = true → 8 ≤ i ∧ i ≤ 15 ∧ i ≠ 13 := by
    intro i h
    rw [metaWord, show COMMON_LVB_REVERSE_VIDEO = 2^14 from by decide,
      show COMMON_LVB_UNDERSCORE = 2^15 from by decide,
      show COMMON_LVB_GRID_HORIZONTAL = 2^10 from by decide,
      show COMMON_LVB_GRID_LVERTICAL = 2^11 from by decide,
      show COMMON_LVB_GRID_RVERTICAL = 2^12 from by decide,
      show COMMON_LVB_LEADING_BYTE = 2^8 from by decide,
      show COMMON_LVB_TRAILING_BYTE = 2^9 from by decide] at h
    simp only [Nat.testBit_lor, testBit_ite_two_pow, Bool.or_eq_true, Bool.and_eq_true,
      decide_eq_true_eq] at h
    rcases h with ((((((⟨_, h⟩ | ⟨_, h⟩) | ⟨_, h⟩) | ⟨_, h⟩) | ⟨_, h⟩) | ⟨_, h⟩) | ⟨_, h⟩) <;>
      omega
  obtain ⟨e1, e2, e3⟩ :=
    legacy_word_roundtrip f.val b.val (metaWord rv un gh gl gr lb tb) f.isLt b.isLt hm
  simp only [legacyAttr, TextAttribute.SetFromLegacy, TextAttribute.GetLegacyAttributes,
    TextColor.GetIndex, Bool.false_eq_true, if_false, Nat.or_zero, TextAttribute.mk.injEq]
  exact ⟨e1, congrArg TextColor.indexed e2, congrArg TextColor.indexed e3,
    trivial, trivial, trivial, trivial, trivial, trivial, trivial⟩

namespace BufferOut

/-- Unfolding a push sequence one push at a time. -/
theorem pushSeq_cons (s : SgrStack) (c : TextAttribute) (t : List TextAttribute) :
    SgrStack.pushSeq s (c :: t) = SgrStack.pushSeq (s.Push c []) t := rfl

/-- Unfolding a pop fold from the outside: popping n+1 times is popping n
times and then once more. -/
theorem popN_succ (s : SgrStack) (n : Nat) (d : TextAttribute) :
    SgrStack.popN s (n + 1) d =
      SgrStack.Pop (SgrStack.popN s n d).1 (SgrStack.popN s n d).2 := rfl

/-- Popping a nonempty stack decrements the push counter. -/
theorem Pop_num (s : SgrStack) (cur : TextAttribute) (h : 0 < s.numSgrPushes) :
    (s.Pop cur).1.numSgrPushes = s.numSgrPushes - 1 := by
  simp only [SgrStack.Pop, if_pos h]
  split <;> rfl

/-- Popping never modifies the stored slots. -/
theorem Pop_stored (s : SgrStack) (cur : TextAttribute) (h : 0 < s.numSgrPushes) :
    (s.Pop cur).1.stored = s.stored := by
  simp only [SgrStack.Pop, if_pos h]
  split <;> rfl

/-- Popping at a retained depth whose slot holds a full-mask snapshot returns
that snapshot verbatim. -/
theorem Pop_val_full (s : SgrStack) (cur c : TextAttribute)
    (h : 0 < s.numSgrPushes) (h2 : s.numSgrPushes - 1 < 10)
    (h3 : s.stored.getD (s.numSgrPushes - 1) (TextAttribute.defaultAttr, 0)
      = (c, UINT32_MAX)) :
    (s.Pop cur).2 = c := by
  simp only [SgrStack.Pop, if_pos h, if_pos h2, h3]
  simp

/-- Popping at a depth beyond the ten retained slots returns the current
attributes unchanged. -/
theorem Pop_val_deep (s : SgrStack) (cur : TextAttribute)
    (h : 0 < s.numSgrPushes) (h2 : ¬ s.numSgrPushes - 1 < 10) :
    (s.Pop cur).2 = cur := by
  simp only [SgrStack.Pop, if_pos h, if_neg h2]

/-- Invariant of the flag-keyed stack under balanced full pushes and pops:
after pushing the attributes of `l` (each a full save) onto `s` and popping
`l.length` times with folding, the push counter returns to its old value, the
slots below it are untouched, and the final attribute is the first pushed one
when the first push was physically retained, and the incoming current
attribute otherwise. -/
theorem balance_aux (l : List TextAttribute) :
    ∀ (s : SgrStack) (d : TextAttribute),
      s.stored.length = 10 →
      s.numSgrPushes + l.length ≤ 100 →
      ((SgrStack.popN (SgrStack.pushSeq s l) l.length d).1.numSgrPushes = s.numSgrPushes) ∧
      ((SgrStack.popN (SgrStack.pushSeq s l) l.length d).1.stored.length = 10) ∧
      (∀ i, i < s.numSgrPushes →
        (SgrStack.popN (SgrStack.pushSeq s l) l.length d).1.stored.getD i
            (TextAttribute.defaultAttr, 0)
          = s.stored.getD i (TextAttribute.defaultAttr, 0)) ∧
      ((SgrStack.popN (SgrStack.pushSeq s l) l.length d).2 =
        if s.numSgrPushes < 10 then l.headD d else d) := by
  induction l with
  | nil =>
    intro s d h1 _
    refine ⟨rfl, h1, fun i _ => rfl, ?_⟩
    cases Nat.decLt s.numSgrPushes 10 with
    | isTrue h => simp [SgrStack.popN, SgrStack.pushSeq, h]
    | isFalse h => simp [SgrStack.popN, SgrStack.pushSeq, h]
  | cons c t ih =>
    intro s d h1 h2
    have hlen : (c :: t).length = t.length + 1 := List.length_cons c t
    have hlt100 : s.numSgrPushes < 100 := by omega
    have hnum1 : (s.Push c []).numSgrPushes = s.numSgrPushes + 1 := by
      simp [SgrStack.Push, hlt100]
    have hlen1 : (s.Push c []).stored.length = 10 := by
      simp only [SgrStack.Push]
      split <;> simp [h1]
    have hbud : (s.Push c []).numSgrPushes + t.length ≤ 100 := by
      rw [hnum1]; omega
    obtain ⟨e1, e2, e3, e4⟩ := ih (s.Push c []) d hlen1 hbud
    rw [hnum1] at e1 e3 e4
    rw [pushSeq_cons, List.length_cons, popN_succ]
    set r := SgrStack.popN (SgrStack.pushSeq (s.Push c []) t) t.length d with hr
    have hpos : 0 < r.1.numSgrPushes := by omega
    have hnumpop : (SgrStack.Pop r.1 r.2).1.numSgrPushes = s.numSgrPushes := by
      rw [Pop_num r.1 r.2 hpos, e1]
      omega
    have hstpop : (SgrStack.Pop r.1 r.2).1.stored = r.1.stored :=
      Pop_stored r.1 r.2 hpos
    by_cases h10 : s.numSgrPushes < 10
    · have hset : (s.Push c []).stored = s.stored.set s.numSgrPushes (c, UINT32_MAX) := by
        simp [SgrStack.Push, h10]
      have hslot : r.1.stored.getD s.numSgrPushes (TextAttribute.defaultAttr, 0)
          = (c, UINT32_MAX) := by
        have ha := e3 s.numSgrPushes (by omega)
        rw [ha, hset, getD_set_self _ _ _ _ (by omega)]
      refine ⟨hnumpop, by rw [hstpop]; exact e2, ?_, ?_⟩
      · intro i hi
        rw [hstpop]
        have hagree := e3 i (by omega)
        rw [hset, getD_set_ne _ _ _ (by omega : s.numSgrPushes ≠ i)] at hagree
        exact hagree
      · rw [Pop_val_full r.1 r.2 c hpos (by rw [e1]; omega)
          (by rw [e1, Nat.add_sub_cancel]; exact hslot)]
        simp [h10]
    · have hset : (s.Push c []).stored = s.stored := by
        simp [SgrStack.Push, h10]
      refine ⟨hnumpop, by rw [hstpop]; exact e2, ?_, ?_⟩
      · intro i hi
        rw [hstpop]
        have hagree := e3 i (by omega)
        rw [hset] at hagree
        exact hagree
      · rw [Pop_val_deep r.1 r.2 hpos (by rw [e1]; omega)]
        rw [e4, if_neg (by omega), if_neg h10]

end BufferOut

/-- C1 amended: on a freshly constructed flag-keyed SgrStack
(src/buffer/out/sgrStack.hpp), N full-save pushes (empty option lists, pushing
the then-current attributes, which may change arbitrarily between pushes)
followed by N folded pops restore the attribute current at the first push,
for every N with 1 ≤ N ≤ 100 — deep pushes are not stored and their pops are
no-ops, so the balance survives overflow of the 10 retained slots. -/
theorem sgrStack_balance_full_pushes (a0 : TextAttribute) (t : List TextAttribute)
    (d : TextAttribute) (h : t.length < 100) :
    (BufferOut.SgrStack.popN
        (BufferOut.SgrStack.pushSeq BufferOut.SgrStack.fresh (a0 :: t))
        (t.length + 1) d).2 = a0 := by
  have h4 := (BufferOut.balance_aux (a0 :: t) BufferOut.SgrStack.fresh d
    (by simp [BufferOut.SgrStack.fresh]) (by simp [BufferOut.SgrStack.fresh]; omega)).2.2.2
  simpa [BufferOut.SgrStack.fresh] using h4

/-- C1 witness: fifteen pushes — deeper than the ten retained slots — then
fifteen folded pops restore the attribute current at the first push. -/
theorem sgrStack_balance_full_pushes_witness :
    (BufferOut.SgrStack.popN
        (BufferOut.SgrStack.pushSeq BufferOut.SgrStack.fresh
          (exAttrRed :: List.replicate 14 exAttrC))
        15 TextAttribute.defaultAttr).2 = exAttrRed := by
  have h := sgrStack_balance_full_pushes exAttrRed (List.replicate 14 exAttrC)
    TextAttribute.defaultAttr (by simp)
  simpa using h

/-- C1 counterexample: the claim fails on the code at concrete inputs in two
ways. On the bitset-keyed stack (src/types/sgrStack.cpp): (a) N = 2 with a
partial first push (option Boldness only) and a foreground change between the
pushes does not restore the starting attribute — the pop merges only the
saved boldness onto the changed attributes; (b) N = 11 with all full pushes
does not restore it either — the ring overwrites the slot of the first push
with the eleventh. The partial-push failure (a) equally affects the
flag-keyed stack of src/buffer/out/sgrStack.hpp. -/
theorem sgrStack_balance_counterexample :
    ((TypesImpl.SgrStack.popAll
        ((TypesImpl.SgrStack.fresh.Push TextAttribute.defaultAttr [1]).Push exAttrRed [])
        2 exAttrRed).2 ≠ TextAttribute.defaultAttr) ∧
    ((TypesImpl.SgrStack.popAll
        (TypesImpl.SgrStack.pushAll TypesImpl.SgrStack.fresh
          (TextAttribute.defaultAttr :: List.replicate 10 exAttrRed))
        11 exAttrRed).2 ≠ TextAttribute.defaultAttr) ∧
    ((BufferOut.SgrStack.popN
        ((BufferOut.SgrStack.fresh.Push TextAttribute.defaultAttr [BufferOut.BoldBright]).Push
          exAttrRed [])
        2 exAttrRed).2 ≠ TextAttribute.defaultAttr) := by
  decide

/-- C2 counterexample: at a concrete state, CursorPosition(0,0) does not
behave like CursorPosition(1,1) — it returns failure and does not move the
cursor, while (1,1) succeeds and homes the cursor (the unit tests assert this:
the 0-to-1 normalization belongs to the parser, not to this layer). -/
theorem cursorPosition_zero_counterexample :
    (AdaptDispatch.CursorPosition 0 0 exState ≠ AdaptDispatch.CursorPosition 1 1 exState) ∧
    ((AdaptDispatch.CursorPosition 0 0 exState).1 = false) ∧
    ((AdaptDispatch.CursorPosition 0 0 exState).2 = exState) := by
  decide

/-- C2 amended: CursorPosition(0,0) — and input 0 to either single-axis
absolute-positioning verb — returns failure with the cursor unchanged, while
input 1 (or (1,1)) succeeds and moves the cursor to the first row/column of
the viewport. -/
theorem cursor_zero_fails_one_homes (s : AdaptDispatch.State)
    (ht : s.viewport.top ≤ 32767) (hl : s.viewport.left ≤ 32767) :
    (AdaptDispatch.CursorPosition 0 0 s = (false, s)) ∧
    (AdaptDispatch.CursorPosition 1 1 s =
      (true, { s with cursor := ⟨s.viewport.left, s.viewport.top⟩ })) ∧
    (AdaptDispatch.CursorHorizontalPositionAbsolute 0 s = (false, s)) ∧
    (AdaptDispatch.CursorHorizontalPositionAbsolute 1 s =
      (true, { s with cursor := ⟨s.viewport.left, s.cursor.y⟩ })) ∧
    (AdaptDispatch.VerticalLinePositionAbsolute 0 s = (false, s)) ∧
    (AdaptDispatch.VerticalLinePositionAbsolute 1 s =
      (true, { s with cursor := ⟨s.cursor.x, s.viewport.top⟩ })) := by
  have hclampx : AdaptDispatch.clampX s (s.viewport.left + ((1 : Nat) - 1 : Int))
      = s.viewport.left := by
    simp only [AdaptDispatch.clampX]
    omega
  have hclampy : AdaptDispatch.clampY s (s.viewport.top + ((1 : Nat) - 1 : Int))
      = s.viewport.top := by
    simp only [AdaptDispatch.clampY]
    omega
  refine ⟨rfl, ?_, rfl, ?_, rfl, ?_⟩
  · simp only [AdaptDispatch.CursorPosition]
    rw [if_neg (by omega), if_neg (by simp [AdaptDispatch.SHRT_MAX]),
      if_neg (by simp only [AdaptDispatch.SHRT_MAX]; push_cast; omega)]
    rw [hclampx, hclampy]
  · simp only [AdaptDispatch.CursorHorizontalPositionAbsolute]
    rw [if_neg (by omega), if_neg (by simp [AdaptDispatch.SHRT_MAX]),
      if_neg (by simp only [AdaptDispatch.SHRT_MAX]; push_cast; omega)]
    rw [hclampx]
  · simp only [AdaptDispatch.VerticalLinePositionAbsolute]
    rw [if_neg (by omega), if_neg (by simp [AdaptDispatch.SHRT_MAX]),
      if_neg (by simp only [AdaptDispatch.SHRT_MAX]; push_cast; omega)]
    rw [hclampy]

/-- C2 witness: the amended behavior at the concrete test viewport — 0 fails
and leaves the state unchanged, 1 homes the cursor. -/
theorem cursor_zero_fails_one_homes_witness :
    (AdaptDispatch.CursorPosition 0 0 exState = (false, exState)) ∧
    (AdaptDispatch.CursorPosition 1 1 exState =
      (true, { exState with cursor := ⟨30, 20⟩ })) := by
  obtain ⟨h0, h1, _⟩ := cursor_zero_fails_one_homes exState (by decide) (by decide)
  exact ⟨h0, h1⟩

/-- C3: every relative cursor-move verb fails and leaves the state untouched
when its distance cannot be represented as a signed 16-bit delta, and every
absolute positioning verb fails and leaves the state untouched when the
0-based input or its sum with the viewport origin overflows a signed 16-bit
coordinate — in the model the failure is decided before any mutation. -/
theorem cursor_verbs_fail_unrepresentable (s : AdaptDispatch.State) :
    (∀ (dir : AdaptDispatch.CursorDirection) (distance : Nat), 32767 < distance →
      AdaptDispatch._CursorMovement dir distance s = (false, s)) ∧
    (∀ row col : Nat,
      (32768 < row ∨ 32768 < col ∨
        (1 ≤ row ∧ (32767 : Int) < s.viewport.top + ((row : Int) - 1)) ∨
        (1 ≤ col ∧ (32767 : Int) < s.viewport.left + ((col : Int) - 1))) →
      AdaptDispatch.CursorPosition row col s = (false, s)) ∧
    (∀ col : Nat,
      (32768 < col ∨ (1 ≤ col ∧ (32767 : Int) < s.viewport.left + ((col : Int) - 1))) →
      AdaptDispatch.CursorHorizontalPositionAbsolute col s = (false, s)) ∧
    (∀ row : Nat,
      (32768 < row ∨ (1 ≤ row ∧ (32767 : Int) < s.viewport.top + ((row : Int) - 1))) →
      AdaptDispatch.VerticalLinePositionAbsolute row s = (false, s)) := by
  refine ⟨?_, ?_, ?_, ?_⟩
  · intro dir distance h
    simp only [AdaptDispatch._CursorMovement, AdaptDispatch.SHRT_MAX, if_pos h]
  · intro row col h
    by_cases hz : row = 0 ∨ col = 0
    · simp only [AdaptDispatch.CursorPosition, if_pos hz]
    · push_neg at hz
      simp only [AdaptDispatch.CursorPosition, if_neg (by tauto : ¬ (row = 0 ∨ col = 0))]
      by_cases hbig : AdaptDispatch.SHRT_MAX < row - 1 ∨ AdaptDispatch.SHRT_MAX < col - 1
      · rw [if_pos hbig]
      · rw [if_neg hbig, if_pos ?_]
        simp only [AdaptDispatch.SHRT_MAX] at hbig
        rcases h with h | h | ⟨h1, h2⟩ | ⟨h1, h2⟩
        · omega
        · omega
        · left; exact h2
        · right; exact h2
  · intro col h
    by_cases hz : col = 0
    · simp only [AdaptDispatch.CursorHorizontalPositionAbsolute, if_pos hz]
    · simp only [AdaptDispatch.CursorHorizontalPositionAbsolute, if_neg hz]
      by_cases hbig : AdaptDispatch.SHRT_MAX < col - 1
      · rw [if_pos hbig]
      · rw [if_neg hbig, if_pos ?_]
        simp only [AdaptDispatch.SHRT_MAX] at hbig
        rcases h with h | ⟨h1, h2⟩
        · omega
        · exact h2
  · intro row h
    by_cases hz : row = 0
    · simp only [AdaptDispatch.VerticalLinePositionAbsolute, if_pos hz]
    · simp only [AdaptDispatch.VerticalLinePositionAbsolute, if_neg hz]
      by_cases hbig : AdaptDispatch.SHRT_MAX < row - 1
      · rw [if_pos hbig]
      · rw [if_neg hbig, if_pos ?_]
        simp only [AdaptDispatch.SHRT_MAX] at hbig
        rcases h with h | ⟨h1, h2⟩
        · omega
        · exact h2

/-- C3 witness: concrete failing inputs — CursorUp by UINT_MAX and
CursorForward by SHRT_MAX + 1 fail without moving; CursorPosition at
(UINT_MAX, UINT_MAX) fails; CursorPosition(5,5) on a viewport whose origin is
SHRT_MAX fails on the addition overflow; each leaves the state unchanged. -/
theorem cursor_verbs_fail_unrepresentable_witness :
    (AdaptDispatch._CursorMovement .up 4294967295 exState = (false, exState)) ∧
    (AdaptDispatch._CursorMovement .right 32768 exState = (false, exState)) ∧
    (AdaptDispatch.CursorPosition 4294967295 4294967295 exState = (false, exState)) ∧
    (AdaptDispatch.CursorPosition 5 5 exStateOv = (false, exStateOv)) := by
  refine ⟨?_, ?_, ?_, ?_⟩
  · exact (cursor_verbs_fail_unrepresentable exState).1 .up 4294967295 (by decide)
  · exact (cursor_verbs_fail_unrepresentable exState).1 .right 32768 (by decide)
  · exact (cursor_verbs_fail_unrepresentable exState).2.1 4294967295 4294967295
      (by left; decide)
  · exact (cursor_verbs_fail_unrepresentable exStateOv).2.1 5 5
      (by right; right; left; exact ⟨by decide, by decide⟩)

/-- C8: the scrolling-margin verb — the four degenerate full-screen requests
(0,0), (1,0), (1,height) and (0,height) all succeed and clear the margins
entirely, and any request that, after one-sided defaulting from the viewport
extent, fails top < bottom ≤ height returns failure and mutates nothing. -/
theorem margins_clear_equiv_and_validate (s : AdaptDispatch.State) (hn : Nat)
    (hh : 2 ≤ hn) (hveq : (hn : Int) = s.viewport.bottom - s.viewport.top) :
    (AdaptDispatch.SetTopBottomScrollingMargins 0 0 s = (true, { s with margins := (0, 0) })) ∧
    (AdaptDispatch.SetTopBottomScrollingMargins 1 0 s = (true, { s with margins := (0, 0) })) ∧
    (AdaptDispatch.SetTopBottomScrollingMargins 0 hn s = (true, { s with margins := (0, 0) })) ∧
    (AdaptDispatch.SetTopBottomScrollingMargins 1 hn s = (true, { s with margins := (0, 0) })) ∧
    (∀ top bottom : Nat,
      ¬((if top = 0 then 1 else (top : Int)) <
          (if bottom = 0 then (hn : Int) else (bottom : Int)) ∧
        (if bottom = 0 then (hn : Int) else (bottom : Int)) ≤ (hn : Int)) →
      AdaptDispatch.SetTopBottomScrollingMargins top bottom s = (false, s)) := by
  refine ⟨?_, ?_, ?_, ?_, ?_⟩
  · simp only [AdaptDispatch.SetTopBottomScrollingMargins]
    rw [← hveq]
    split_ifs <;> first | rfl | (exfalso; omega)
  · simp only [AdaptDispatch.SetTopBottomScrollingMargins]
    rw [← hveq]
    split_ifs <;> first | rfl | (exfalso; omega)
  · simp only [AdaptDispatch.SetTopBottomScrollingMargins]
    rw [← hveq]
    split_ifs <;> first | rfl | (exfalso; omega)
  · simp only [AdaptDispatch.SetTopBottomScrollingMargins]
    rw [← hveq]
    split_ifs <;> first | rfl | (exfalso; omega)
  · intro top bottom hviol
    simp only [AdaptDispatch.SetTopBottomScrollingMargins]
    rw [← hveq]
    exact if_neg hviol

/-- C8 witness: at the concrete test viewport of height 8, the four degenerate
requests clear the margins, and the invalid requests (7,3), (4,4), (9,18) and
(1,9) of the unit tests fail without mutation. -/
theorem margins_clear_equiv_and_validate_witness :
    (AdaptDispatch.SetTopBottomScrollingMargins 0 0 exMarginState =
      (true, { exMarginState with margins := (0, 0) })) ∧
    (AdaptDispatch.SetTopBottomScrollingMargins 1 0 exMarginState =
      (true, { exMarginState with margins := (0, 0) })) ∧
    (AdaptDispatch.SetTopBottomScrollingMargins 0 8 exMarginState =
      (true, { exMarginState with margins := (0, 0) })) ∧
    (AdaptDispatch.SetTopBottomScrollingMargins 1 8 exMarginState =
      (true, { exMarginState with margins := (0, 0) })) ∧
    (AdaptDispatch.SetTopBottomScrollingMargins 7 3 exMarginState = (false, exMarginState)) ∧
    (AdaptDispatch.SetTopBottomScrollingMargins 4 4 exMarginState = (false, exMarginState)) ∧
    (AdaptDispatch.SetTopBottomScrollingMargins 9 18 exMarginState = (false, exMarginState)) ∧
    (AdaptDispatch.SetTopBottomScrollingMargins 1 9 exMarginState = (false, exMarginState)) := by
  obtain ⟨h1, h2, h3, h4, h5⟩ :=
    margins_clear_equiv_and_validate exMarginState 8 (by decide) (by decide)
  exact ⟨h1, h2, h3, h4, h5 7 3 (by decide), h5 4 4 (by decide), h5 9 18 (by decide),
    h5 1 9 (by decide)⟩

end Terminal
